import Mathlib

/-!
Verification of the SSSD LDAP identity backend and Kerberos 5 auth backend
(`server/providers/ldap/ldap_id.c`) against its natural-language specification.

The C code is shallowly embedded: each C function that a claim touches is
translated into an executable Lean definition over explicit state.  Pointers
become `Option`-valued fields, `time_t` becomes `Int`, byte buffers become
`List Nat` (each entry one byte), and the outcome of every asynchronous
sub-operation (connect, bind, search, pipe write, pipe read) is passed in as
an explicit parameter, since those sub-operations live outside this module.

The file is laid out with all definitions first, then all theorems.
-/

/- ===================== errno / PAM constants ===================== -/

def EOK : Nat := 0
def EIO_errno : Nat := 5
def EAGAIN : Nat := 11
def ENOMEM : Nat := 12
def EACCES : Nat := 13
def EINVAL : Nat := 22

def PAM_SUCCESS : Int := 0
def PAM_SYSTEM_ERR : Int := 4
def PAM_AUTHINFO_UNAVAIL : Int := 9

/-- `enum sss_cli_command` values relevant here (from the client protocol
header; only their distinctness matters for this module). -/
def SSS_PAM_AUTHENTICATE : Nat := 241

def SSS_PAM_CHAUTHTOK : Nat := 246

/- ===================== talloc_asprintf model ===================== -/

/-- Core of the `talloc_asprintf` model: scan the format character list and
substitute each `%s` with the next argument's characters.  The source only
ever uses `%s` directives, so this captures every format string it passes. -/
def sprintfAux : List Char → List String → List Char
  | [], _ => []
  | '%' :: 's' :: rest, a :: args2 => a.data ++ sprintfAux rest args2
  | '%' :: 's' :: rest, [] => sprintfAux rest []
  | c :: rest, args => c :: sprintfAux rest args

/-- Model of `talloc_asprintf(fmt, args...)` for `%s`-only format strings. -/
def asprintf (fmt : String) (args : List String) : String :=
  ⟨sprintfAux fmt.data args⟩

/- ===================== data model: struct sdap_id_ctx ===================== -/

/-- The subset of `struct sdap_options` this module reads: the two timeouts
and, from the user/group attribute maps, the object-class name and the
`name`/`uid`/`gid`/`modstamp` attribute names (`user_map[SDAP_AT_USER_NAME].name`
is embedded as `user_name_attr`, and so on).  The raw maps are kept as lists
of optional names for `build_attrs_from_map`. -/
structure SdapOptions where
  offline_timeout : Int
  enum_refresh_timeout : Int
  user_oc : String
  user_name_attr : String
  user_uid_attr : String
  user_modstamp_attr : String
  group_oc : String
  group_name_attr : String
  group_gid_attr : String
  group_modstamp_attr : String
  user_map : List (Option String)
  group_map : List (Option String)
  deriving Repr, DecidableEq

/-- `struct sdap_handle`: only the `connected` flag is read here. -/
structure SdapHandle where
  connected : Bool
  deriving Repr, DecidableEq

/-- `struct sdap_id_ctx`: the provider context.  `gsh` is the global sdap
handle pointer (`none` = NULL); `went_offline`/`offline` are the online
tracker; the two optional strings are the enumeration watermark cursors. -/
structure SdapIdCtx where
  opts : SdapOptions
  gsh : Option SdapHandle
  went_offline : Int
  offline : Bool
  max_user_timestamp : Option String
  max_group_timestamp : Option String
  deriving Repr, DecidableEq

/- ===================== online tracker ===================== -/

/-- `is_offline(ctx)`: `time(NULL)` is passed in as `now`.  The source reads
`if (ctx->went_offline + ctx->opts->offline_timeout < now) return false;
return ctx->offline;`. -/
def is_offline (ctx : SdapIdCtx) (now : Int) : Bool :=
  if ctx.went_offline + ctx.opts.offline_timeout < now then
    false
  else
    ctx.offline

/-- `connected(ctx)`: NULL handle means not connected. -/
def connected (ctx : SdapIdCtx) : Bool :=
  match ctx.gsh with
  | some sh => sh.connected
  | none => false

/- ===================== connection manager (sdap_id_connect_*) ===================== -/

/-- `enum sdap_result` as consumed by `sdap_id_bind_done`: only equality with
`SDAP_AUTH_SUCCESS` is tested, every other value is a bind non-success. -/
inductive SdapResult where
  | authSuccess
  | authFail
  | unavail
  | protoError
  deriving Repr, DecidableEq

/-- Composite outcome of the `sdap_id_connect` request, as produced by the
`sdap_id_connect_done` / `sdap_id_bind_done` callback chain.  `connectRet` is
`sdap_connect_recv`'s return, `bindRet` is `sdap_auth_recv`'s return and
`bindResult` its `result` out-parameter.  `some e` models
`tevent_req_error(req, e)`, `none` models `tevent_req_done(req)`. -/
def sdap_id_connect_outcome (connectRet : Nat) (bindRet : Nat)
    (bindResult : SdapResult) : Option Nat :=
  if connectRet ≠ 0 then some connectRet
  else if bindRet ≠ 0 then some bindRet
  else if bindResult ≠ SdapResult.authSuccess then some EACCES
  else none

/-- `sdap_id_connect_recv(req)`: on request error return the saved error (or
`EIO` when it is zero) and leave the context alone; on success steal the new
handle into `ctx->gsh` and return `EOK`. -/
def sdap_id_connect_recv (ctx : SdapIdCtx) (sh : SdapHandle)
    (outcome : Option Nat) : Nat × SdapIdCtx :=
  match outcome with
  | some e => (if e ≠ 0 then e else EIO_errno, ctx)
  | none => (EOK, { ctx with gsh := some sh })

/- ===================== users_get request chain ===================== -/

/-- Per-request state of `users_get_send` (struct users_get_state). -/
structure users_get_state where
  ev : Nat
  ctx : SdapIdCtx
  filter : String
  attrs : List String
  deriving Repr, DecidableEq

/-- `build_attrs_from_map(memctx, map, size, &attrs)`: the output list always
begins with the literal `"objectClass"` (slot 0 of the map is replaced by it),
followed by the non-NULL mapped names of slots `1 .. size-1`. -/
def build_attrs_from_map (map : List (Option String)) : List String :=
  "objectClass" :: (map.drop 1).filterMap id

/-- The `users_get` continuation chain for a request that found the context
disconnected: `users_get_connect_done` (via `sdap_id_connect_recv`), then the
user search, then `users_get_done`, which reports
`(ret, "Enum Users Failed")` on any error and `(EOK, NULL)` on success.
`searchRet` is `sdap_get_users_recv`'s return.  The result is the
`(status, errmsg)` pair handed to `sdap_req_done` together with the provider
context as it stands when the completion callback fires. -/
def users_get_via_connect (ctx : SdapIdCtx) (sh : SdapHandle)
    (connectRet bindRet : Nat) (bindResult : SdapResult) (searchRet : Nat) :
    (Nat × Option String) × SdapIdCtx :=
  let r := sdap_id_connect_recv ctx sh
             (sdap_id_connect_outcome connectRet bindRet bindResult)
  if r.1 ≠ 0 then
    ((r.1, some "Enum Users Failed"), r.2)
  else if searchRet ≠ 0 then
    ((searchRet, some "Enum Users Failed"), r.2)
  else
    ((EOK, none), r.2)

/- ===================== ID request dispatcher ===================== -/

/-- `enum be_req_entry_type`: `BE_REQ_USER`, `BE_REQ_GROUP`,
`BE_REQ_INITGROUPS`, anything else hits the default arm. -/
inductive BeReqEntry where
  | user
  | group
  | initgroups
  | unknown
  deriving Repr, DecidableEq

/-- `enum be_filter_type`: only `BE_FILTER_NAME` and `BE_FILTER_IDNUM` are
recognized by this module. -/
inductive BeFilterType where
  | byName
  | byIdnum
  | unknown
  deriving Repr, DecidableEq

/-- `enum be_attr_type`: only equality with `BE_ATTR_CORE` is tested. -/
inductive BeAttrType where
  | core
  | mem
  | all
  deriving Repr, DecidableEq

/-- `struct be_acct_req`, the account-info request payload. -/
structure BeAcctReq where
  entry_type : BeReqEntry
  attr_type : BeAttrType
  filter_type : BeFilterType
  filter_value : String
  deriving Repr, DecidableEq

/-- How `sdap_get_account_info` leaves the request: `done` means
`sdap_req_done(breq, status, msg)` was called immediately, without building
any directory operation; the `dispatch*` constructors mean the corresponding
`*_send` sub-request (which is what performs connect and search) was
created. -/
inductive AcctResult where
  | done (status : Nat) (msg : String)
  | dispatchUsers (filter_value : String) (filter_type : BeFilterType)
  | dispatchGroups (filter_value : String) (filter_type : BeFilterType)
  | dispatchInitgroups (name : String)
  deriving Repr, DecidableEq

/-- `sdap_get_account_info(breq)`: offline short-circuit, wildcard no-op,
INITGROUPS validation, unknown-type rejection, and otherwise dispatch of the
matching lookup operation. -/
def sdap_get_account_info (ctx : SdapIdCtx) (now : Int) (ar : BeAcctReq) :
    AcctResult :=
  if is_offline ctx now then AcctResult.done EAGAIN "Offline"
  else
    match ar.entry_type with
    | BeReqEntry.user =>
      if ar.filter_value = "*" then AcctResult.done EOK "Success"
      else AcctResult.dispatchUsers ar.filter_value ar.filter_type
    | BeReqEntry.group =>
      if ar.filter_value = "*" then AcctResult.done EOK "Success"
      else AcctResult.dispatchGroups ar.filter_value ar.filter_type
    | BeReqEntry.initgroups =>
      if ar.filter_type ≠ BeFilterType.byName then
        AcctResult.done EINVAL "Invalid filter type"
      else if ar.attr_type ≠ BeAttrType.core then
        AcctResult.done EINVAL "Invalid attr type"
      else if ar.filter_value.contains '*' then
        AcctResult.done EINVAL "Invalid filter value"
      else AcctResult.dispatchInitgroups ar.filter_value
    | BeReqEntry.unknown => AcctResult.done EINVAL "Invalid request type"

/- ===================== enumeration: filters ===================== -/

/-- The filter built by `enum_users_send`: with a user watermark the format is
`"(&(%s=*)(objectclass=%s)(%s>=%s)(!(%s=%s)))"` over
(name attr, user oc, modstamp attr, W, modstamp attr, W); without one it is
`"(&(%s=*)(objectclass=%s))"`. -/
def enum_users_filter (ctx : SdapIdCtx) : String :=
  match ctx.max_user_timestamp with
  | some w =>
    asprintf "(&(%s=*)(objectclass=%s)(%s>=%s)(!(%s=%s)))"
      [ctx.opts.user_name_attr, ctx.opts.user_oc,
       ctx.opts.user_modstamp_attr, w, ctx.opts.user_modstamp_attr, w]
  | none =>
    asprintf "(&(%s=*)(objectclass=%s))"
      [ctx.opts.user_name_attr, ctx.opts.user_oc]

/-- The filter built by `enum_groups_send`, symmetric over the group map and
the group watermark. -/
def enum_groups_filter (ctx : SdapIdCtx) : String :=
  match ctx.max_group_timestamp with
  | some w =>
    asprintf "(&(%s=*)(objectclass=%s)(%s>=%s)(!(%s=%s)))"
      [ctx.opts.group_name_attr, ctx.opts.group_oc,
       ctx.opts.group_modstamp_attr, w, ctx.opts.group_modstamp_attr, w]
  | none =>
    asprintf "(&(%s=*)(objectclass=%s))"
      [ctx.opts.group_name_attr, ctx.opts.group_oc]

/- ===================== enumeration: watermark update ===================== -/

/-- `enum_users_op_done`: on a failed search (`ret ≠ 0` from
`sdap_get_users_recv`) the request errors and the context is untouched; on
success, a non-NULL returned `timestamp` replaces `max_user_timestamp`
unconditionally, and a NULL one leaves it unchanged. -/
def enum_users_op_done (ctx : SdapIdCtx) (ret : Nat) (timestamp : Option String) :
    Except Nat SdapIdCtx :=
  if ret ≠ 0 then Except.error ret
  else
    match timestamp with
    | some t => Except.ok { ctx with max_user_timestamp := some t }
    | none => Except.ok ctx

/-- `enum_groups_op_done`: symmetric to `enum_users_op_done` with
`max_group_timestamp`. -/
def enum_groups_op_done (ctx : SdapIdCtx) (ret : Nat) (timestamp : Option String) :
    Except Nat SdapIdCtx :=
  if ret ≠ 0 then Except.error ret
  else
    match timestamp with
    | some t => Except.ok { ctx with max_group_timestamp := some t }
    | none => Except.ok ctx

/- ===================== user enumeration state shapes ===================== -/

/-- `struct enum_users_state`, the shape through which the user-enumeration
continuations read their per-request state. -/
structure enum_users_state where
  ev : Nat
  ctx : SdapIdCtx
  filter : String
  attrs : List String
  deriving Repr, DecidableEq

/-- The positional reinterpretation performed when `enum_users_connect_done`
and `enum_users_op_done` call `tevent_req_data(req, struct enum_users_state)`
on the state that `enum_users_send` allocated as `struct users_get_state`:
field `i` of one shape is read as field `i` of the other. -/
def enum_users_view (s : users_get_state) : enum_users_state :=
  ⟨s.ev, s.ctx, s.filter, s.attrs⟩

/-- The state written by `enum_users_send`, using the `users_get_state` shape
exactly as the source does: event context, provider context, enumeration
filter, attribute list. -/
def enum_users_send_state (ev : Nat) (ctx : SdapIdCtx) : users_get_state :=
  ⟨ev, ctx, enum_users_filter ctx, build_attrs_from_map ctx.opts.user_map⟩

/-- The arguments the user-enumeration continuations pass to
`sdap_get_users_send`, read off the state through the `enum_users_state`
view. -/
structure UserSearchArgs where
  ev : Nat
  attrs : List String
  filter : String
  deriving Repr, DecidableEq

/-- `enum_users_connect_done`'s reads of the (reinterpreted) state when it
issues the search. -/
def enum_users_connect_done_search (s : enum_users_state) : UserSearchArgs :=
  ⟨s.ev, s.attrs, s.filter⟩

/-- Modelled from the spec: the user-enumeration state as it would be if a
single state type (`enum_users_state`) were used throughout, which is the
behaviour the claim compares the type-punned code against. -/
def enum_users_single_state (ev : Nat) (ctx : SdapIdCtx) : enum_users_state :=
  ⟨ev, ctx, enum_users_filter ctx, build_attrs_from_map ctx.opts.user_map⟩

/- ===================== auth: krb5 context and UPN resolution ===================== -/

/-- `struct krb5_ctx` (the fields this module reads): KDC address, realm,
`try_simple_upn` flag and change-password principal. -/
structure Krb5Ctx where
  kdcip : Option String
  realm : Option String
  try_simple_upn : Bool
  changepw_principle : String
  deriving Repr, DecidableEq

/-- The `switch (res->count)` body of `get_user_upn_done`, computing
`pd->upn`.  `res` is the local-store result list; each entry carries the
optional `SYSDB_UPN` attribute value of one record.  Zero results leave the
UPN NULL; one result takes its attribute value, and only when that value is
NULL does the simple-UPN fallback (`"%s@%s"` of user and realm, guarded by
`try_simple_upn` and a non-NULL realm) apply; more than one result is treated
like zero. -/
def get_user_upn_switch (user : String) (k : Krb5Ctx)
    (res : List (Option String)) : Option String :=
  match res with
  | [] => none
  | [m] =>
    match m with
    | some upn => some upn
    | none =>
      if k.try_simple_upn then
        match k.realm with
        | some r => some (asprintf "%s@%s" [user, r])
        | none => none
      else none
  | _ => none

/-- How `get_user_upn_done` leaves the PAM request: either failed immediately
with `PAM_SYSTEM_ERR` (the `failed:` label), or the helper-child protocol was
started with the resolved UPN. -/
inductive AuthStep where
  | failedSystemErr
  | childStarted (upn : String)
  deriving Repr, DecidableEq

/-- `get_user_upn_done(pvt, err, res)`: an ldb error or a NULL UPN fail the
request with `PAM_SYSTEM_ERR` before any child is spawned; otherwise
`krb5_setup` + `handle_child_send` run with the resolved UPN. -/
def get_user_upn_done (user : String) (k : Krb5Ctx) (ldbErr : Bool)
    (res : List (Option String)) : AuthStep :=
  if ldbErr then AuthStep.failedSystemErr
  else
    match get_user_upn_switch user k res with
    | none => AuthStep.failedSystemErr
    | some upn => AuthStep.childStarted upn

/- ===================== auth: child fd lifecycle ===================== -/

/-- The set of pipe descriptors the parent currently holds open. -/
structure FdEnv where
  openFds : List Nat
  deriving Repr, DecidableEq

def fd_close (e : FdEnv) (fd : Nat) : FdEnv :=
  ⟨e.openFds.filter (fun x => x ≠ fd)⟩

/-- Descriptor numbers handed out to the two `pipe()` calls of `fork_child`:
`pipe(pipefd_from_child)` yields (read, write) = (3, 4) and
`pipe(pipefd_to_child)` yields (5, 6). -/
def fromChildRead : Nat := 3
def fromChildWrite : Nat := 4
def toChildRead : Nat := 5
def toChildWrite : Nat := 6

/-- Success/failure of the three fallible steps inside `fork_child`. -/
structure ForkOutcome where
  pipe1ok : Bool
  pipe2ok : Bool
  forkok : Bool
  deriving Repr, DecidableEq

/-- `fork_child(kr)` as seen from the parent.  On the success path the parent
keeps `read_from_child_fd = pipefd_from_child[0]` and
`write_to_child_fd = pipefd_to_child[1]` and closes the child's two ends; on
any failure it returns early with the descriptors opened so far left as they
are. -/
def fork_child (e : FdEnv) (o : ForkOutcome) : FdEnv × Option (Nat × Nat) :=
  if o.pipe1ok = false then (e, none)
  else
    let e1 : FdEnv := ⟨e.openFds ++ [fromChildRead, fromChildWrite]⟩
    if o.pipe2ok = false then (e1, none)
    else
      let e2 : FdEnv := ⟨e1.openFds ++ [toChildRead, toChildWrite]⟩
      if o.forkok = false then (e2, none)
      else
        (fd_close (fd_close e2 fromChildWrite) toChildRead,
         some (fromChildRead, toChildWrite))

/-- Success/failure of the fallible steps of a whole Child Invocation:
`create_send_buffer`, the three `fork_child` steps, the one-shot `write`, and
the pipe read. -/
structure ChildRunOutcome where
  bufok : Bool
  fork : ForkOutcome
  writeok : Bool
  readok : Bool
  deriving Repr, DecidableEq

/-- The fd lifecycle of `handle_child_send` followed by `handle_child_done`,
ending where the request's completion callback fires (a NULL return makes the
caller run its `failed:` path, which closes nothing).  The source order is:
build buffer; fork; `write` then unconditionally `close(write_to_child_fd)`
then check the write result; read; in `handle_child_done` unconditionally
`close(read_from_child_fd)` then check the read result.  Returns the open
descriptors at completion time and whether the invocation succeeded. -/
def handle_child_send (e : FdEnv) (o : ChildRunOutcome) : FdEnv × Bool :=
  if o.bufok = false then (e, false)
  else
    match fork_child e o.fork with
    | (e1, none) => (e1, false)
    | (e1, some (rfd, wfd)) =>
      let e2 := fd_close e1 wfd
      if o.writeok = false then (e2, false)
      else
        let e3 := fd_close e2 rfd
        (e3, o.readok)

/- ===================== auth: request framing ===================== -/

/-- Little-endian byte serialization of a 32-bit store (`((uint32_t *)p)[0] = v`
on a little-endian host, with the usual modular truncation). -/
def u32le (n : Nat) : List Nat :=
  [n % 256, n / 256 % 256, n / 65536 % 256, n / 16777216 % 256]

/-- `struct pam_data` (the fields `create_send_buffer` reads): the command and
the three byte strings.  `upn` holds the bytes of the NUL-terminated
`pd->upn` up to but excluding the terminator, so `strlen(pd->upn)` is its
length. -/
structure PamData where
  cmd : Nat
  upn : List Nat
  authtok : List Nat
  newauthtok : List Nat
  deriving Repr, DecidableEq

/-- `struct io_buffer`: declared size plus contents. -/
structure IoBuffer where
  size : Nat
  data : List Nat
  deriving Repr, DecidableEq

/-- `create_send_buffer(kr, &io_buf)`: computes
`buf->size = 3*sizeof(int) + strlen(upn) + authtok_size`
(plus `sizeof(int) + newauthtok_size` for CHAUTHTOK) and then writes, at a
running offset `rp` that always sits at the end of what was written so far:
u32 cmd, u32 upn length, upn bytes, u32 authtok length, authtok bytes, and
for CHAUTHTOK also u32 newauthtok length and newauthtok bytes. -/
def create_send_buffer (pd : PamData) : IoBuffer :=
  let size := 3 * 4 + pd.upn.length + pd.authtok.length
      + (if pd.cmd = SSS_PAM_CHAUTHTOK then 4 + pd.newauthtok.length else 0)
  let d0 : List Nat := []
  let d1 := d0 ++ u32le pd.cmd
  let d2 := d1 ++ u32le pd.upn.length
  let d3 := d2 ++ pd.upn
  let d4 := d3 ++ u32le pd.authtok.length
  let d5 := d4 ++ pd.authtok
  let d6 := if pd.cmd = SSS_PAM_CHAUTHTOK
            then d5 ++ u32le pd.newauthtok.length ++ pd.newauthtok
            else d5
  ⟨size, d6⟩

/-- Modelled from the spec: the §6.2 request frame — u32 cmd, u32 upn_len,
upn bytes (no NUL), u32 authtok_len, authtok bytes, and exactly when
`cmd = CHAUTHTOK` a u32 newauthtok_len followed by the newauthtok bytes, all
in little-endian host order.  This is the layout a compliant parser on the
child side consumes. -/
def request_wire_spec (pd : PamData) : List Nat :=
  u32le pd.cmd
    ++ (u32le pd.upn.length ++ pd.upn)
    ++ (u32le pd.authtok.length ++ pd.authtok)
    ++ (if pd.cmd = SSS_PAM_CHAUTHTOK
        then u32le pd.newauthtok.length ++ pd.newauthtok
        else [])

/- ===================== auth: reply parsing ===================== -/

/-- Two's-complement decoding of four little-endian bytes as `int32_t`. -/
def i32le_decode (b0 b1 b2 b3 : Nat) : Int :=
  let u := b0 % 256 + 256 * (b1 % 256) + 65536 * (b2 % 256) + 16777216 * (b3 % 256)
  if u < 2147483648 then (u : Int) else (u : Int) - 4294967296

/-- The decoded reply fields at their fixed offsets: `pam_status` at 0,
`msg_type` at 4, `msg_len` at 8 (the third 32-bit field). -/
def reply_status (buf : List Nat) : Int :=
  i32le_decode (buf.getD 0 0) (buf.getD 1 0) (buf.getD 2 0) (buf.getD 3 0)

def reply_msg_type (buf : List Nat) : Int :=
  i32le_decode (buf.getD 4 0) (buf.getD 5 0) (buf.getD 6 0) (buf.getD 7 0)

def reply_msg_len (buf : List Nat) : Int :=
  i32le_decode (buf.getD 8 0) (buf.getD 9 0) (buf.getD 10 0) (buf.getD 11 0)

/-- A parsed helper-child reply. -/
structure ChildReply where
  pam_status : Int
  msg_type : Int
  msg : List Nat
  deriving Repr, DecidableEq

/-- The validation performed by `krb5_pam_handler_done` on the raw reply:
reject when `len < 3*sizeof(int32_t)` (`"message too short"`), decode the
three `int32_t` header fields, reject when `p + *msg_len != len` with
`p = 12` (`"message format error"`), and otherwise return the fields and the
message chunk `buf[12 .. len)`. -/
def parse_child_reply (buf : List Nat) : Option ChildReply :=
  match buf with
  | b0 :: b1 :: b2 :: b3 :: b4 :: b5 :: b6 :: b7 :: b8 :: b9 :: b10 :: b11 :: rest =>
    if 12 + i32le_decode b8 b9 b10 b11 ≠ ((12 + rest.length : Nat) : Int) then none
    else
      some ⟨i32le_decode b0 b1 b2 b3, i32le_decode b4 b5 b6 b7, rest⟩
  | _ => none

/-- The reply-processing prefix of `krb5_pam_handler_done`: `pd->pam_status`
starts at `PAM_SYSTEM_ERR`; a malformed reply leaves it there with no
response items appended; a well-formed one appends the message chunk via
`pam_add_response(pd, *msg_type, *msg_len, &buf[p])` and then takes
`pam_status` from the first field.  Result: final `pam_status` and the
appended `(msg_type, bytes)` response items. -/
def krb5_reply_outcome (buf : List Nat) : Int × List (Int × List Nat) :=
  match parse_child_reply buf with
  | none => (PAM_SYSTEM_ERR, [])
  | some r => (r.pam_status, [(r.msg_type, r.msg)])

/- ===================== concrete evaluation fixtures ===================== -/

/-- A typical RFC-2307 options literal used for concrete evaluations. -/
def optsEx : SdapOptions :=
  { offline_timeout := 300
    enum_refresh_timeout := 300
    user_oc := "posixAccount"
    user_name_attr := "uid"
    user_uid_attr := "uidNumber"
    user_modstamp_attr := "modifyTimestamp"
    group_oc := "posixGroup"
    group_name_attr := "cn"
    group_gid_attr := "gidNumber"
    group_modstamp_attr := "modifyTimestamp"
    user_map := [some "posixAccount", some "uid", some "uidNumber", none, some "modifyTimestamp"]
    group_map := [some "posixGroup", some "cn", some "gidNumber", some "modifyTimestamp"] }

/-- A tracker state that flipped offline at time 0 with `offline_timeout = 300`. -/
def ctxOffline0 : SdapIdCtx :=
  { opts := optsEx
    gsh := none
    went_offline := 0
    offline := true
    max_user_timestamp := none
    max_group_timestamp := none }

/-- A context that is currently online (offline flag clear). -/
def ctxOnline : SdapIdCtx :=
  { opts := optsEx
    gsh := none
    went_offline := 0
    offline := false
    max_user_timestamp := none
    max_group_timestamp := none }

/-- The delta-enumeration scenario context: user watermark
`20240101000000Z`, no group watermark. -/
def ctxDelta : SdapIdCtx :=
  { opts := optsEx
    gsh := some ⟨true⟩
    went_offline := 0
    offline := false
    max_user_timestamp := some "20240101000000Z"
    max_group_timestamp := none }

/-- An enumeration context whose user watermark is already at
`20240102000000Z`. -/
def ctxDelta2 : SdapIdCtx :=
  { opts := optsEx
    gsh := some ⟨true⟩
    went_offline := 0
    offline := false
    max_user_timestamp := some "20240102000000Z"
    max_group_timestamp := none }

/-- A krb5 auth context with `try_simple_upn` on and a realm configured. -/
def krb5CtxEx : Krb5Ctx :=
  { kdcip := some "10.0.0.1"
    realm := some "EXAMPLE.COM"
    try_simple_upn := true
    changepw_principle := "kadmin/changepw@EXAMPLE.COM" }

/- ===================================================================== -/
/- =========================== THEOREMS ================================ -/
/- ===================================================================== -/

theorem string_data_append (a b : String) : (a ++ b).data = a.data ++ b.data := rfl

/-- C4 counterexample input: the tracker went offline at `t = 0` with
`offline_timeout = 300`; at `now = 300` the elapsed time has exactly reached
`offline_timeout`, so by the claim `is_offline` should already return false —
but the code still returns true. -/
theorem is_offline_at_boundary_counterexample :
    is_offline ctxOffline0 300 = true ∧
    ¬ ((300 : Int) - ctxOffline0.went_offline < ctxOffline0.opts.offline_timeout) := by
  constructor
  · rfl
  · decide

/-- C4 (amended): `is_offline` returns true exactly when the offline flag is
set and the elapsed time `now − went_offline` is at most (not strictly less
than) `offline_timeout`; it first returns false once the elapsed time
strictly exceeds `offline_timeout`. -/
theorem is_offline_characterization (ctx : SdapIdCtx) (now : Int) :
    is_offline ctx now
      = (ctx.offline && decide (now - ctx.went_offline ≤ ctx.opts.offline_timeout)) := by
  unfold is_offline
  split
  · rename_i h
    have : ¬ (now - ctx.went_offline ≤ ctx.opts.offline_timeout) := by omega
    simp [this]
  · rename_i h
    have : now - ctx.went_offline ≤ ctx.opts.offline_timeout := by omega
    simp [this]

/-- C2 counterexample input: connect succeeds (`connectRet = 0`), the bind
returns non-success, observed at `now = 10`.  The request does complete with
`EACCES` (AUTH_FAILED), but the provider context is left untouched, so
`is_offline` is still false immediately afterwards — the context is never
marked offline, contradicting the claim that `is_offline()` holds for
`offline_timeout` seconds. -/
theorem bind_failure_not_marked_offline_counterexample :
    (users_get_via_connect ctxOnline ⟨true⟩ 0 0 SdapResult.authFail 0).1.1 = EACCES ∧
    is_offline (users_get_via_connect ctxOnline ⟨true⟩ 0 0 SdapResult.authFail 0).2 10 = false := by
  constructor
  · rfl
  · rfl

/-- C2 (amended): when the connect succeeds but the bind returns non-success,
the ID lookup completes with `EACCES` (AUTH_FAILED) and the error message
`"Enum Users Failed"`, and the provider context is returned entirely
unchanged: nothing in the ID paths marks the context offline, so `is_offline`
afterwards is exactly what it was before. -/
theorem users_get_bind_failure_completion (ctx : SdapIdCtx) (sh : SdapHandle)
    (bindResult : SdapResult) (searchRet : Nat)
    (h : bindResult ≠ SdapResult.authSuccess) :
    users_get_via_connect ctx sh 0 0 bindResult searchRet
      = ((EACCES, some "Enum Users Failed"), ctx) := by
  simp [users_get_via_connect, sdap_id_connect_recv, sdap_id_connect_outcome, h, EACCES]

/-- Witness for `users_get_bind_failure_completion` at a concrete input. -/
theorem users_get_bind_failure_completion_witness :
    users_get_via_connect ctxOnline ⟨true⟩ 0 0 SdapResult.authFail 3
      = ((EACCES, some "Enum Users Failed"), ctxOnline) :=
  users_get_bind_failure_completion ctxOnline ⟨true⟩ SdapResult.authFail 3 (by decide)

/-- C6: the user (resp. group) enumeration filter carries both the
`(modstamp>=W)` and the `(!(modstamp=W))` conjuncts exactly when the
corresponding watermark `W` is set, and neither when it is unset: with the
watermark set the filter is
`(&(<name>=*)(objectclass=<oc>)(<modstamp>>=<W>)(!(<modstamp>=<W>)))`, and
otherwise it is `(&(<name>=*)(objectclass=<oc>))`. -/
theorem enum_filters_shape (ctx : SdapIdCtx) (w : String) :
    (ctx.max_user_timestamp = some w →
      enum_users_filter ctx
        = "(&(" ++ ctx.opts.user_name_attr ++ "=*)(objectclass=" ++ ctx.opts.user_oc
            ++ ")(" ++ ctx.opts.user_modstamp_attr ++ ">=" ++ w
            ++ ")(!(" ++ ctx.opts.user_modstamp_attr ++ "=" ++ w ++ ")))") ∧
    (ctx.max_user_timestamp = none →
      enum_users_filter ctx
        = "(&(" ++ ctx.opts.user_name_attr ++ "=*)(objectclass=" ++ ctx.opts.user_oc ++ "))") ∧
    (ctx.max_group_timestamp = some w →
      enum_groups_filter ctx
        = "(&(" ++ ctx.opts.group_name_attr ++ "=*)(objectclass=" ++ ctx.opts.group_oc
            ++ ")(" ++ ctx.opts.group_modstamp_attr ++ ">=" ++ w
            ++ ")(!(" ++ ctx.opts.group_modstamp_attr ++ "=" ++ w ++ ")))") ∧
    (ctx.max_group_timestamp = none →
      enum_groups_filter ctx
        = "(&(" ++ ctx.opts.group_name_attr ++ "=*)(objectclass=" ++ ctx.opts.group_oc ++ "))") := by
  refine ⟨fun h => ?_, fun h => ?_, fun h => ?_, fun h => ?_⟩ <;>
    · simp only [enum_users_filter, enum_groups_filter, h]
      apply String.ext
      simp only [string_data_append, List.append_assoc]
      rfl

/-- Witness for `enum_filters_shape`: the delta-enumeration scenario, with
user watermark `20240101000000Z` over the `uid`/`posixAccount`/
`modifyTimestamp` map and no group watermark. -/
theorem enum_filters_shape_witness :
    enum_users_filter ctxDelta
      = "(&(uid=*)(objectclass=posixAccount)(modifyTimestamp>=20240101000000Z)(!(modifyTimestamp=20240101000000Z)))" ∧
    enum_groups_filter ctxDelta = "(&(cn=*)(objectclass=posixGroup))" :=
  ⟨((enum_filters_shape ctxDelta "20240101000000Z").1 rfl).trans rfl,
   ((enum_filters_shape ctxDelta "20240101000000Z").2.2.2 rfl).trans rfl⟩

/-- C3 counterexample input: the current user watermark is `20240102000000Z`
and a successful phase returns the strictly *older* timestamp
`20240101000000Z`.  The code still replaces the watermark with it, so the
cursor moves backwards: replacement is not conditional on the returned
timestamp being strictly newer than the current watermark (the returned
timestamp is lexicographically older, as the second conjunct states). -/
theorem watermark_not_monotonic_counterexample :
    enum_users_op_done ctxDelta2 0 (some "20240101000000Z")
      = Except.ok { ctxDelta2 with max_user_timestamp := some "20240101000000Z" } ∧
    ¬ ("20240102000000Z".data < "20240101000000Z".data) := by
  constructor
  · rfl
  · decide

/-- C3 (amended): the watermark cursor is replaced exactly when the phase
succeeded and the server returned a (non-NULL) timestamp — whatever its
value, with no newer-than comparison — and is left unchanged when the phase
failed or returned no timestamp. -/
theorem enum_watermark_replacement (ctx : SdapIdCtx) (ret : Nat) (t : String) :
    (ret ≠ 0 →
      enum_users_op_done ctx ret (some t) = Except.error ret ∧
      enum_groups_op_done ctx ret (some t) = Except.error ret) ∧
    enum_users_op_done ctx 0 none = Except.ok ctx ∧
    enum_groups_op_done ctx 0 none = Except.ok ctx ∧
    enum_users_op_done ctx 0 (some t) = Except.ok { ctx with max_user_timestamp := some t } ∧
    enum_groups_op_done ctx 0 (some t) = Except.ok { ctx with max_group_timestamp := some t } := by
  refine ⟨fun h => ⟨?_, ?_⟩, ?_, ?_, ?_, ?_⟩ <;>
    simp [enum_users_op_done, enum_groups_op_done, *]

/-- Witness for `enum_watermark_replacement` at a concrete input. -/
theorem enum_watermark_replacement_witness :
    (enum_users_op_done ctxDelta2 21 (some "X") = Except.error 21 ∧
     enum_groups_op_done ctxDelta2 21 (some "X") = Except.error 21) ∧
    enum_users_op_done ctxDelta2 0 (some "X")
      = Except.ok { ctxDelta2 with max_user_timestamp := some "X" } :=
  ⟨(enum_watermark_replacement ctxDelta2 21 "X").1 (by decide),
   (enum_watermark_replacement ctxDelta2 0 "X").2.2.2.1⟩

/-- C9: any account-info request dispatched while `is_offline` holds is
completed immediately with `EAGAIN` (RETRY_LATER) and the reason `"Offline"`;
the `AcctResult.done` constructor means `sdap_req_done` ran before any lookup
operation — and with it any directory connect or search — was even built. -/
theorem offline_requests_short_circuit (ctx : SdapIdCtx) (now : Int)
    (ar : BeAcctReq) (h : is_offline ctx now = true) :
    sdap_get_account_info ctx now ar = AcctResult.done EAGAIN "Offline" := by
  simp [sdap_get_account_info, h]

/-- Witness for `offline_requests_short_circuit`: a USER/NAME request at
`now = 10` against a tracker that went offline at `t = 0` with
`offline_timeout = 300`. -/
theorem offline_requests_short_circuit_witness :
    sdap_get_account_info ctxOffline0 10
      ⟨BeReqEntry.user, BeAttrType.core, BeFilterType.byName, "alice"⟩
      = AcctResult.done EAGAIN "Offline" :=
  offline_requests_short_circuit ctxOffline0 10
    ⟨BeReqEntry.user, BeAttrType.core, BeFilterType.byName, "alice"⟩ (by decide)

/-- C1 counterexample input: `try_simple_upn = true`, realm `EXAMPLE.COM`
configured, and the local-store UPN lookup for user `alice` returns *zero*
results.  The code fails the request with `PAM_SYSTEM_ERR` instead of
proceeding with `alice@EXAMPLE.COM`: the simple-UPN fallback is never reached
from the zero-results branch. -/
theorem zero_upn_rows_no_fallback_counterexample :
    get_user_upn_done "alice" krb5CtxEx false [] = AuthStep.failedSystemErr ∧
    AuthStep.failedSystemErr ≠ AuthStep.childStarted "alice@EXAMPLE.COM" := by
  constructor
  · rfl
  · decide

/-- C1 (amended): the simple-UPN fallback applies only when the local-store
lookup returns exactly one result whose UPN attribute is absent — then, with
`try_simple_upn` enabled and a realm configured, authentication proceeds with
the synthesized `upn = "<user>@<realm>"`; when the lookup returns zero
results the request fails with `PAM_SYSTEM_ERR` regardless of
`try_simple_upn`. -/
theorem simple_upn_fallback_single_result (user : String) (k : Krb5Ctx)
    (r : String) (hs : k.try_simple_upn = true) (hr : k.realm = some r) :
    get_user_upn_done user k false [none]
      = AuthStep.childStarted (user ++ "@" ++ r) ∧
    get_user_upn_done user k false [] = AuthStep.failedSystemErr := by
  have hupn : asprintf "%s@%s" [user, r] = user ++ "@" ++ r := by
    apply String.ext
    have h1 : (asprintf "%s@%s" [user, r]).data = user.data ++ ('@' :: (r.data ++ [])) := rfl
    have h2 : (user ++ "@" ++ r).data = (user.data ++ ['@']) ++ r.data := rfl
    rw [h1, h2]
    simp
  constructor
  · simp [get_user_upn_done, get_user_upn_switch, hs, hr, hupn]
  · rfl

/-- Witness for `simple_upn_fallback_single_result` at the scenario's
concrete input. -/
theorem simple_upn_fallback_single_result_witness :
    get_user_upn_done "alice" krb5CtxEx false [none]
      = AuthStep.childStarted "alice@EXAMPLE.COM" ∧
    get_user_upn_done "alice" krb5CtxEx false [] = AuthStep.failedSystemErr :=
  ⟨((simple_upn_fallback_single_result "alice" krb5CtxEx "EXAMPLE.COM" rfl rfl).1).trans rfl,
   (simple_upn_fallback_single_result "alice" krb5CtxEx "EXAMPLE.COM" rfl rfl).2⟩

/-- C5: evaluation of the Child Invocation fd lifecycle at its failing
inputs.  First conjunct: when the one-shot `write` to the child fails, the
completion callback fires with `read_from_child_fd` still open (the write fd
was closed, the read fd was not).  Second conjunct: when the second `pipe()`
call fails, both descriptors of the first pipe stay open.  Third conjunct:
on the all-success path both pipe fds are indeed closed by completion time,
which shows the failure-path leaks are the exception, not the rule. -/
theorem handle_child_write_fail_leaks_read_fd :
    ((handle_child_send ⟨[]⟩ ⟨true, ⟨true, true, true⟩, false, true⟩).1.openFds
        = [fromChildRead] ∧
     (handle_child_send ⟨[]⟩ ⟨true, ⟨true, true, true⟩, false, true⟩).2 = false) ∧
    (handle_child_send ⟨[]⟩ ⟨true, ⟨true, false, true⟩, true, true⟩).1.openFds
        = [fromChildRead, fromChildWrite] ∧
    (handle_child_send ⟨[]⟩ ⟨true, ⟨true, true, true⟩, true, true⟩).1.openFds = [] := by
  decide

/-- C7: the request buffer built by `create_send_buffer` is laid out exactly
as the §6.2 frame — u32 cmd, u32 upn_len, upn bytes (no NUL), u32
authtok_len, authtok bytes, and exactly when `cmd = CHAUTHTOK` a u32
newauthtok_len followed by the newauthtok bytes, little-endian — and the
bytes written fill the declared buffer size exactly. -/
theorem create_send_buffer_layout (pd : PamData) :
    (create_send_buffer pd).data = request_wire_spec pd ∧
    (create_send_buffer pd).data.length = (create_send_buffer pd).size := by
  unfold create_send_buffer request_wire_spec
  by_cases h : pd.cmd = SSS_PAM_CHAUTHTOK
  · refine ⟨?_, ?_⟩
    · simp [h, List.append_assoc]
    · simp [h, u32le]
      omega
  · refine ⟨?_, ?_⟩
    · simp [h, List.append_assoc]
    · simp [h, u32le]
      omega

/-- C8: reply validation of `krb5_pam_handler_done`.  A reply of total length
`len` is rejected — the request keeps `PAM_SYSTEM_ERR` and takes no
`pam_status` or response item from the buffer — exactly when `len < 12` or
`12 + msg_len ≠ len`, where `msg_len` is the third decoded 32-bit field;
otherwise `pam_status` is taken from the first field and the message chunk
`buf[12..)` is appended as a response item with the second field as its
type. -/
theorem child_reply_validation (buf : List Nat) :
    (buf.length < 12 ∨ 12 + reply_msg_len buf ≠ (buf.length : Int) →
      krb5_reply_outcome buf = (PAM_SYSTEM_ERR, [])) ∧
    (¬ buf.length < 12 → 12 + reply_msg_len buf = (buf.length : Int) →
      krb5_reply_outcome buf
        = (reply_status buf, [(reply_msg_type buf, buf.drop 12)])) := by
  rcases buf with _ | ⟨b0, _ | ⟨b1, _ | ⟨b2, _ | ⟨b3, _ | ⟨b4, _ | ⟨b5, _ | ⟨b6,
    _ | ⟨b7, _ | ⟨b8, _ | ⟨b9, _ | ⟨b10, _ | ⟨b11, rest⟩⟩⟩⟩⟩⟩⟩⟩⟩⟩⟩⟩
  case cons.cons.cons.cons.cons.cons.cons.cons.cons.cons.cons.cons =>
    have hml : reply_msg_len (b0::b1::b2::b3::b4::b5::b6::b7::b8::b9::b10::b11::rest)
        = i32le_decode b8 b9 b10 b11 := rfl
    have hlen : ((b0::b1::b2::b3::b4::b5::b6::b7::b8::b9::b10::b11::rest).length : Int)
        = ((12 + rest.length : Nat) : Int) := by
      simp
      omega
    constructor
    · intro h
      rcases h with h | h
      · simp at h
        omega
      · rw [hml, hlen] at h
        simp only [krb5_reply_outcome, parse_child_reply]
        rw [if_pos h]
    · intro _ h
      rw [hml, hlen] at h
      simp only [krb5_reply_outcome, parse_child_reply]
      rw [if_neg (by simp [h])]
      exact rfl
  all_goals exact ⟨fun _ => rfl, fun hlen _ => absurd (by simp) hlen⟩

/-- Witness for `child_reply_validation`: a well-formed 14-byte reply with
`pam_status = 0`, `msg_type = 1`, `msg_len = 2` and message bytes
`[65, 66]`. -/
theorem child_reply_validation_witness :
    krb5_reply_outcome [0, 0, 0, 0, 1, 0, 0, 0, 2, 0, 0, 0, 65, 66]
      = (0, [(1, [65, 66])]) :=
  ((child_reply_validation [0, 0, 0, 0, 1, 0, 0, 0, 2, 0, 0, 0, 65, 66]).2
    (by decide) (by decide)).trans (by decide)

/-- C10: the type pun between `users_get_state` (the shape
`enum_users_send` allocates) and `enum_users_state` (the shape the
continuations read) is benign: the two records have the same fields in the
same order, so every field read through the reinterpreting view equals the
field that was written, and the state the punned pipeline hands to the user
search equals the one a single-state-type pipeline would hand it. -/
theorem enum_users_state_pun_benign (s : users_get_state) (ev : Nat)
    (ctx : SdapIdCtx) :
    (enum_users_view s).ev = s.ev ∧
    (enum_users_view s).ctx = s.ctx ∧
    (enum_users_view s).filter = s.filter ∧
    (enum_users_view s).attrs = s.attrs ∧
    enum_users_view (enum_users_send_state ev ctx) = enum_users_single_state ev ctx ∧
    enum_users_connect_done_search (enum_users_view (enum_users_send_state ev ctx))
      = enum_users_connect_done_search (enum_users_single_state ev ctx) :=
  ⟨rfl, rfl, rfl, rfl, rfl, rfl⟩
